import Mathlib

/-!
Shallow embedding of the cloud-resource cleanup utilities in
admin/cleanup.py of the flocker repository, together with proofs about
the destroy/keep planner, its classification functions, the executor
and the exit-signal wiring.

External collaborators (dateutil date parsing, Python's uuid.UUID
string parsing, libcloud drivers and the actual cloud API calls) are
abstracted as function parameters; everything the repository's own code
does is translated function by function.

Modelling conventions:
  - datetimes and timedeltas are integers on one linear clock, so the
    comparison of a datetime difference with a timedelta becomes
    integer arithmetic;
  - a Python dict with string keys and string values is an association
    list whose keys are pairwise distinct in practice, looked up first
    match first;
  - code that can raise is modelled with Except PyErr; the error
    constructor records which Python exception class escapes;
  - parse_date s = none models dateutil raising on the string s, and
    some t models a successful parse to the instant t;
  - py_uuid_int s = none models uuid.UUID(s) raising, and some u models
    success with 128-bit integer value u; the node property of a Python
    UUID is its integer value masked to the low 48 bits.
-/

/-- The Python exception classes the embedded code distinguishes. -/
inductive PyErr where
  | keyError
  | typeError
  | valueError
  | attributeError
deriving DecidableEq

/-- libcloud NodeState values: the two cleanup.py tests for, plus
representatives of the remaining states (for example STOPPED). -/
inductive NodeState where
  | running
  | rebooting
  | terminated
  | pending
  | stopped
  | unknown
deriving DecidableEq

/-- A libcloud StorageVolume, restricted to the fields cleanup.py
reads.  The last four fields model entries of volume.extra:
tags and metadata are the optional tag mappings read by
volume.extra.get, create_time is the AWS creation timestamp (already a
datetime object when present) and created_at is the Rackspace creation
timestamp string. -/
structure Volume where
  id : String
  tags : Option (List (String × String))
  metadata : Option (List (String × String))
  create_time : Option Int
  created_at : Option String
deriving DecidableEq

/-- A libcloud Node, restricted to the fields cleanup.py reads.
created and launch_time model node.extra.get of the keys of the same
names. -/
structure Node where
  id : String
  name : String
  state : NodeState
  created : Option String
  launch_time : Option String
deriving DecidableEq

/-- VolumeActions (cleanup.py): the volumes to destroy and the volumes
to keep, in the order they were appended. -/
structure VolumeActions where
  destroy : List Volume
  keep : List Volume
deriving DecidableEq

/-- The plain dict with the keys destroyed and kept returned by
CleanAcceptanceInstances.start. -/
structure InstanceActions where
  destroyed : List Node
  kept : List Node
deriving DecidableEq

/-- Python dict subscription on a string-keyed mapping: some value when
the key is present, none when subscription would raise KeyError. -/
def dict_get : List (String × String) → String → Option String
  | [], _ => none
  | (k, v) :: rest, key => if k = key then some v else dict_get rest key

/-- The expression volume.extra.get of tags with the metadata lookup as
default (in _get_tag): the tag mapping when present, else the metadata
mapping when present, else the Python value None. -/
def ownership_mapping (v : Volume) : Option (List (String × String)) :=
  match v.tags with
  | some m => some m
  | none => v.metadata

/-- _get_tag (cleanup.py).  When neither mapping is present the code
subscripts None, raising TypeError; when the chosen mapping lacks the
requested key, subscription raises KeyError. -/
def _get_tag (v : Volume) (tag_name : String) : Except PyErr String :=
  match ownership_mapping v with
  | none => Except.error PyErr.typeError
  | some m =>
    match dict_get m tag_name with
    | some s => Except.ok s
    | none => Except.error PyErr.keyError

/-- CleanVolumes._get_cluster_id. -/
def _get_cluster_id (v : Volume) : Except PyErr String :=
  _get_tag v "flocker-cluster-id"

/-- The node property of a Python UUID: the low 48 bits of its 128-bit
integer value. -/
def uuid_node (u : Nat) : Nat := u % 2 ^ 48

/-- CleanVolumes._is_test_cluster: parse the cluster id as a UUID and
compare its node field with the configured marker; the bare except
clause turns any failure into False (after logging). -/
def _is_test_cluster (py_uuid_int : String → Option Nat) (marker : Nat)
    (cluster_id : String) : Bool :=
  match py_uuid_int cluster_id with
  | some u => decide (uuid_node u = marker)
  | none => false

/-- CleanVolumes._is_test_volume: only a KeyError from the tag lookup
is caught (yielding False); any other exception, in particular the
TypeError raised when neither tag mapping exists, propagates. -/
def _is_test_volume (py_uuid_int : String → Option Nat) (marker : Nat)
    (v : Volume) : Except PyErr Bool :=
  match _get_cluster_id v with
  | Except.ok cluster_id =>
      Except.ok (_is_test_cluster py_uuid_int marker cluster_id)
  | Except.error PyErr.keyError => Except.ok false
  | Except.error e => Except.error e

/-- _get_volume_creation_time: AWS volumes carry create_time directly;
otherwise the Rackspace created_at string is subscripted (KeyError when
absent, because that subscription happens inside the except handler)
and parsed (dateutil raising when unparsable). -/
def _get_volume_creation_time (parse_date : String → Option Int)
    (v : Volume) : Except PyErr Int :=
  match v.create_time with
  | some t => Except.ok t
  | none =>
    match v.created_at with
    | none => Except.error PyErr.keyError
    | some s =>
      match parse_date s with
      | some t => Except.ok t
      | none => Except.error PyErr.valueError

/-- The destroy decision CleanVolumes._filter_test_volumes makes for a
single volume once both per-volume lookups have succeeded (false in the
lookup-failure cases, in which the loop aborts instead of deciding). -/
def vol_decision (py_uuid_int : String → Option Nat)
    (parse_date : String → Option Int) (marker : Nat) (now lag : Int)
    (v : Volume) : Bool :=
  match _get_volume_creation_time parse_date v,
        _is_test_volume py_uuid_int marker v with
  | Except.ok created, Except.ok t => t && decide (now - created > lag)
  | _, _ => false

/-- CleanVolumes._filter_test_volumes: one pass over the volumes,
computing for each the creation time (which may raise) and the
ownership test (which may raise), destroying test volumes strictly
older than the lag and keeping every other volume, both lists in
traversal order. -/
def _filter_test_volumes (py_uuid_int : String → Option Nat)
    (parse_date : String → Option Int) (marker : Nat) (now lag : Int) :
    List Volume → Except PyErr VolumeActions
  | [] => Except.ok ⟨[], []⟩
  | v :: rest =>
    match _get_volume_creation_time parse_date v with
    | Except.error e => Except.error e
    | Except.ok created =>
      match _is_test_volume py_uuid_int marker v with
      | Except.error e => Except.error e
      | Except.ok t =>
        match _filter_test_volumes py_uuid_int parse_date marker now lag rest with
        | Except.error e => Except.error e
        | Except.ok acts =>
          if t && decide (now - created > lag) then
            Except.ok ⟨v :: acts.destroy, acts.keep⟩
          else
            Except.ok ⟨acts.destroy, v :: acts.keep⟩

/-- CleanVolumes.start: driver construction and volume enumeration are
abstracted (the concatenated volume list of all drivers is an input);
the plan is computed by _filter_test_volumes and the dry_run argument
is never consulted. -/
def CleanVolumes_start (py_uuid_int : String → Option Nat)
    (parse_date : String → Option Int) (lag : Int) (marker : Nat)
    (now : Int) (volumes : List Volume) (dry_run : Bool) :
    Except PyErr VolumeActions :=
  _filter_test_volumes py_uuid_int parse_date marker now lag volumes

/-- Python str.startswith: the string s starts with the string q. -/
def startswith (s q : String) : Bool := q.data.isPrefixOf s.data

/-- The state test of CleanAcceptanceInstances.start: membership of
node.state in the pair of NodeState.RUNNING and NodeState.TERMINATED. -/
def state_eligible : NodeState → Bool
  | NodeState.running => true
  | NodeState.terminated => true
  | _ => false

/-- The list-comprehension filter of CleanAcceptanceInstances.start:
node.name.startswith against the tuple of configured name stems with
the creator appended, combined with the state test. -/
def is_test_node (prefixes : List String) (creator : String) (n : Node) : Bool :=
  ((prefixes.map (fun q => q ++ creator)).any (fun q => startswith n.name q))
    && state_eligible n.state

/-- get_creation_time (cleanup.py): read the created field, falling
back to launch_time; absence of both yields None, while an unparsable
string makes dateutil raise. -/
def get_creation_time (parse_date : String → Option Int) (n : Node) :
    Except PyErr (Option Int) :=
  match (match n.created with | some s => some s | none => n.launch_time) with
  | none => Except.ok none
  | some s =>
    match parse_date s with
    | some t => Except.ok (some t)
    | none => Except.error PyErr.valueError

/-- The destroy decision for one filtered test node: creation_time is
not None and creation_time < cutoff. -/
def node_decision (parse_date : String → Option Int) (cutoff : Int)
    (n : Node) : Bool :=
  match get_creation_time parse_date n with
  | Except.ok (some t) => decide (t < cutoff)
  | _ => false

/-- The destroyed/kept loop of CleanAcceptanceInstances.start over the
filtered test nodes, both lists in traversal order. -/
def partition_nodes (parse_date : String → Option Int) (cutoff : Int) :
    List Node → Except PyErr InstanceActions
  | [] => Except.ok ⟨[], []⟩
  | n :: rest =>
    match get_creation_time parse_date n with
    | Except.error e => Except.error e
    | Except.ok ct =>
      match partition_nodes parse_date cutoff rest with
      | Except.error e => Except.error e
      | Except.ok acts =>
        if (match ct with | some t => decide (t < cutoff) | none => false) then
          Except.ok ⟨n :: acts.destroyed, acts.kept⟩
        else
          Except.ok ⟨acts.destroyed, n :: acts.kept⟩

/-- CleanAcceptanceInstances.start: driver construction and node
enumeration are abstracted (the Rackspace and EC2 node lists are
inputs); the configured name stems get the creator appended, the
cutoff is now minus the lag, the concatenated nodes are filtered by
name and state and the filtered nodes partitioned by age; the dry_run
argument is never consulted. -/
def CleanAcceptanceInstances_start (parse_date : String → Option Int)
    (lag : Int) (prefixes : List String) (creator : String) (now : Int)
    (rackspace_nodes ec2_nodes : List Node) (dry_run : Bool) :
    Except PyErr InstanceActions :=
  let cutoff := now - lag
  let all_nodes := rackspace_nodes ++ ec2_nodes
  let test_nodes := all_nodes.filter (is_test_node prefixes creator)
  partition_nodes parse_date cutoff test_nodes

/-- A value of the resource_actions list in
cleanup_cloud_resources_main: either a VolumeActions instance or the
plain dict returned by CleanAcceptanceInstances.start. -/
inductive PlanValue where
  | volumeActions (a : VolumeActions)
  | nodeDict (p : InstanceActions)
deriving DecidableEq

/-- Whether _dumps succeeds on a plan value: _ActionEncoder handles
VolumeActions and StorageVolume, so a dict of node lists serializes
only when it contains no Node object (a Node falls through to
JSONEncoder.default, which raises TypeError).  The VolumeActions branch
is unreachable in the modelled main, where the volume cleaner is
commented out. -/
def json_encodable : PlanValue → Bool
  | PlanValue.volumeActions _ => true
  | PlanValue.nodeDict p => p.destroyed.isEmpty && p.kept.isEmpty

/-- print_actions: serialize the action list with _dumps and write it
to standard output; serialization raises when some contained value is
not encodable. -/
def print_actions (plans : List PlanValue) : Except PyErr Unit :=
  if plans.all json_encodable then Except.ok () else Except.error PyErr.typeError

/-- The attribute access action_group.destroy performed by do_exit and
perform_actions: defined on VolumeActions, an AttributeError on the
dict produced by CleanAcceptanceInstances.start. -/
def getattr_destroy : PlanValue → Except PyErr (List Volume)
  | PlanValue.volumeActions a => Except.ok a.destroy
  | PlanValue.nodeDict _ => Except.error PyErr.attributeError

/-- How a run terminates: falling off the end of main (process exit
status 0), an explicit SystemExit with the given code, or an uncaught
exception (CPython then prints a traceback and exits with status 1). -/
inductive ExitOutcome where
  | normal
  | system_exit (code : Nat)
  | crashed (e : PyErr)
deriving DecidableEq

/-- do_exit: walk the action groups and raise SystemExit with code 1 as
soon as one group's destroy attribute is a non-empty list. -/
def do_exit : List PlanValue → ExitOutcome
  | [] => ExitOutcome.normal
  | g :: rest =>
    match getattr_destroy g with
    | Except.error e => ExitOutcome.crashed e
    | Except.ok d =>
      if d.length > 0 then ExitOutcome.system_exit 1 else do_exit rest

/-- Whether an exit outcome is a nonzero process exit signal. -/
def exit_signal_nonzero : ExitOutcome → Bool
  | ExitOutcome.normal => false
  | ExitOutcome.system_exit c => decide (c ≠ 0)
  | ExitOutcome.crashed _ => true

/-- cleanup_cloud_resources_main after successful option parsing: the
CleanVolumes call is commented out in the source, so the action list
holds exactly the instance plan; the plan is printed with
print_actions and the exit signal is derived by do_exit (the
perform_actions call is likewise commented out). -/
def cleanup_cloud_resources_main (parse_date : String → Option Int)
    (instance_lag : Int) (prefixes : List String) (creator : String)
    (now : Int) (rackspace_nodes ec2_nodes : List Node) (dry_run : Bool) :
    ExitOutcome :=
  match CleanAcceptanceInstances_start parse_date instance_lag prefixes creator
      now rackspace_nodes ec2_nodes dry_run with
  | Except.error e => ExitOutcome.crashed e
  | Except.ok plan =>
    match print_actions [PlanValue.nodeDict plan] with
    | Except.error e => ExitOutcome.crashed e
    | Except.ok _ => do_exit [PlanValue.nodeDict plan]

/-- destroy_resource: one destroy attempt; the bare except clause logs
and swallows any failure.  The behaviour of the provider's destroy call
on each volume is the destroy_call parameter. -/
def destroy_resource (destroy_call : Volume → Except PyErr Unit)
    (r : Volume) : Except PyErr Unit :=
  match destroy_call r with
  | Except.ok u => Except.ok u
  | Except.error _ => Except.ok ()

/-- The inner loop of perform_actions over one destroy list, returning
the sequence of volumes on which a destroy attempt was made; an
exception escaping destroy_resource would abort the loop here. -/
def destroy_each (destroy_call : Volume → Except PyErr Unit) :
    List Volume → Except PyErr (List Volume)
  | [] => Except.ok []
  | r :: rest =>
    match destroy_resource destroy_call r with
    | Except.error e => Except.error e
    | Except.ok _ =>
      match destroy_each destroy_call rest with
      | Except.error e => Except.error e
      | Except.ok trace => Except.ok (r :: trace)

/-- perform_actions: destroy every resource of every action group's
destroy attribute, returning the sequence of destroy attempts made. -/
def perform_actions (destroy_call : Volume → Except PyErr Unit) :
    List VolumeActions → Except PyErr (List Volume)
  | [] => Except.ok []
  | g :: rest =>
    match destroy_each destroy_call g.destroy with
    | Except.error e => Except.error e
    | Except.ok t1 =>
      match perform_actions destroy_call rest with
      | Except.error e => Except.error e
      | Except.ok t2 => Except.ok (t1 ++ t2)

/-! ### Helper lemmas about the planner loops -/

/-- Each destroy attempt swallows any failure of the underlying call,
so the per-destroy-set loop always completes and attempts every listed
volume once, in order. -/
theorem destroy_each_eq (destroy_call : Volume → Except PyErr Unit) :
    ∀ l : List Volume, destroy_each destroy_call l = Except.ok l := by
  intro l
  induction l with
  | nil => rfl
  | cons r rest ih =>
    simp only [destroy_each, destroy_resource]
    cases destroy_call r <;> simp [ih]

/-- A successful volume pass produces exactly the two filters of the
input by the per-volume decision. -/
theorem filter_test_volumes_ok_eq (py_uuid_int : String → Option Nat)
    (parse_date : String → Option Int) (marker : Nat) (now lag : Int) :
    ∀ (vols : List Volume) (a : VolumeActions),
      _filter_test_volumes py_uuid_int parse_date marker now lag vols = Except.ok a →
      a.destroy = vols.filter (vol_decision py_uuid_int parse_date marker now lag) ∧
      a.keep = vols.filter (fun v => ! vol_decision py_uuid_int parse_date marker now lag v) := by
  intro vols
  induction vols with
  | nil =>
    intro a h
    injection h with h
    subst h
    exact ⟨rfl, rfl⟩
  | cons v rest ih =>
    intro a h
    simp only [_filter_test_volumes] at h
    cases hc : _get_volume_creation_time parse_date v with
    | error e => rw [hc] at h; exact Except.noConfusion h
    | ok created =>
      rw [hc] at h
      cases ht : _is_test_volume py_uuid_int marker v with
      | error e => rw [ht] at h; exact Except.noConfusion h
      | ok t =>
        rw [ht] at h
        cases hr : _filter_test_volumes py_uuid_int parse_date marker now lag rest with
        | error e => rw [hr] at h; exact Except.noConfusion h
        | ok acts =>
          rw [hr] at h
          obtain ⟨ih1, ih2⟩ := ih acts hr
          have hdec : vol_decision py_uuid_int parse_date marker now lag v
              = (t && decide (now - created > lag)) := by
            simp [vol_decision, hc, ht]
          cases hb : (t && decide (now - created > lag)) with
          | true =>
            have h2 : Except.ok (VolumeActions.mk (v :: acts.destroy) acts.keep)
                = Except.ok (ε := PyErr) a := by rw [← h]; simp [hb]
            injection h2 with h2
            subst h2
            refine ⟨?_, ?_⟩ <;> simp [List.filter_cons, hdec, hb, ih1, ih2]
          | false =>
            have h2 : Except.ok (VolumeActions.mk acts.destroy (v :: acts.keep))
                = Except.ok (ε := PyErr) a := by rw [← h]; simp [hb]
            injection h2 with h2
            subst h2
            refine ⟨?_, ?_⟩ <;> simp [List.filter_cons, hdec, hb, ih1, ih2]

/-- On a successful volume pass, both per-volume lookups succeeded for
every input volume. -/
theorem filter_test_volumes_ok_lookups (py_uuid_int : String → Option Nat)
    (parse_date : String → Option Int) (marker : Nat) (now lag : Int) :
    ∀ (vols : List Volume) (a : VolumeActions),
      _filter_test_volumes py_uuid_int parse_date marker now lag vols = Except.ok a →
      ∀ v ∈ vols, ∃ c t, _get_volume_creation_time parse_date v = Except.ok c ∧
        _is_test_volume py_uuid_int marker v = Except.ok t := by
  intro vols
  induction vols with
  | nil => intro a _ v hv; cases hv
  | cons v rest ih =>
    intro a h w hw
    simp only [_filter_test_volumes] at h
    cases hc : _get_volume_creation_time parse_date v with
    | error e => rw [hc] at h; exact Except.noConfusion h
    | ok created =>
      rw [hc] at h
      cases ht : _is_test_volume py_uuid_int marker v with
      | error e => rw [ht] at h; exact Except.noConfusion h
      | ok t =>
        rw [ht] at h
        cases hr : _filter_test_volumes py_uuid_int parse_date marker now lag rest with
        | error e => rw [hr] at h; exact Except.noConfusion h
        | ok acts =>
          rcases List.mem_cons.mp hw with rfl | hw2
          · exact ⟨created, t, hc, ht⟩
          · exact ih acts hr w hw2

/-- Whether the volume pass succeeds does not depend on the lag. -/
theorem filter_test_volumes_ok_of_ok (py_uuid_int : String → Option Nat)
    (parse_date : String → Option Int) (marker : Nat) (now lag lag2 : Int) :
    ∀ (vols : List Volume) (a : VolumeActions),
      _filter_test_volumes py_uuid_int parse_date marker now lag vols = Except.ok a →
      ∃ a2, _filter_test_volumes py_uuid_int parse_date marker now lag2 vols = Except.ok a2 := by
  intro vols
  induction vols with
  | nil => intro a _; exact ⟨⟨[], []⟩, rfl⟩
  | cons v rest ih =>
    intro a h
    simp only [_filter_test_volumes] at h
    cases hc : _get_volume_creation_time parse_date v with
    | error e => rw [hc] at h; exact Except.noConfusion h
    | ok created =>
      rw [hc] at h
      cases ht : _is_test_volume py_uuid_int marker v with
      | error e => rw [ht] at h; exact Except.noConfusion h
      | ok t =>
        rw [ht] at h
        cases hr : _filter_test_volumes py_uuid_int parse_date marker now lag rest with
        | error e => rw [hr] at h; exact Except.noConfusion h
        | ok acts =>
          obtain ⟨acts2, hr2⟩ := ih acts hr
          cases hb : (t && decide (now - created > lag2)) with
          | true =>
            refine ⟨⟨v :: acts2.destroy, acts2.keep⟩, ?_⟩
            simp only [_filter_test_volumes, hc, ht, hr2, hb, if_true]
          | false =>
            refine ⟨⟨acts2.destroy, v :: acts2.keep⟩, ?_⟩
            simp only [_filter_test_volumes, hc, ht, hr2, hb, Bool.false_eq_true, if_false]

/-- The per-volume destroy decision is monotone in the lag: shrinking
the lag can only enlarge the destroy side. -/
theorem vol_decision_mono (py_uuid_int : String → Option Nat)
    (parse_date : String → Option Int) (marker : Nat) (now : Int)
    {lag lag2 : Int} (hlag : lag2 < lag) (v : Volume)
    (h : vol_decision py_uuid_int parse_date marker now lag v = true) :
    vol_decision py_uuid_int parse_date marker now lag2 v = true := by
  cases hc : _get_volume_creation_time parse_date v with
  | error e => simp [vol_decision, hc] at h
  | ok created =>
    cases ht : _is_test_volume py_uuid_int marker v with
    | error e => simp [vol_decision, hc, ht] at h
    | ok t =>
      simp only [vol_decision, hc, ht, Bool.and_eq_true, decide_eq_true_eq] at h ⊢
      exact ⟨h.1, lt_trans hlag h.2⟩

/-- A successful pass over the filtered test nodes produces exactly the
two filters of its input by the per-node decision. -/
theorem partition_nodes_ok_eq (parse_date : String → Option Int) (cutoff : Int) :
    ∀ (nodes : List Node) (p : InstanceActions),
      partition_nodes parse_date cutoff nodes = Except.ok p →
      p.destroyed = nodes.filter (node_decision parse_date cutoff) ∧
      p.kept = nodes.filter (fun n => ! node_decision parse_date cutoff n) := by
  intro nodes
  induction nodes with
  | nil =>
    intro p h
    injection h with h
    subst h
    exact ⟨rfl, rfl⟩
  | cons n rest ih =>
    intro p h
    simp only [partition_nodes] at h
    cases hg : get_creation_time parse_date n with
    | error e => rw [hg] at h; exact Except.noConfusion h
    | ok ct =>
      rw [hg] at h
      cases hr : partition_nodes parse_date cutoff rest with
      | error e => rw [hr] at h; exact Except.noConfusion h
      | ok acts =>
        rw [hr] at h
        obtain ⟨ih1, ih2⟩ := ih acts hr
        cases ct with
        | none =>
          have hdec : node_decision parse_date cutoff n = false := by
            simp [node_decision, hg]
          have h2 : Except.ok (InstanceActions.mk acts.destroyed (n :: acts.kept))
              = Except.ok (ε := PyErr) p := by rw [← h]; simp
          injection h2 with h2
          subst h2
          refine ⟨?_, ?_⟩ <;> simp [List.filter_cons, hdec, ih1, ih2]
        | some t =>
          have hdec : node_decision parse_date cutoff n = decide (t < cutoff) := by
            simp [node_decision, hg]
          cases hb : decide (t < cutoff) with
          | true =>
            have h2 : Except.ok (InstanceActions.mk (n :: acts.destroyed) acts.kept)
                = Except.ok (ε := PyErr) p := by rw [← h]; simp [hb]
            injection h2 with h2
            subst h2
            refine ⟨?_, ?_⟩ <;> simp [List.filter_cons, hdec, hb, ih1, ih2]
          | false =>
            have h2 : Except.ok (InstanceActions.mk acts.destroyed (n :: acts.kept))
                = Except.ok (ε := PyErr) p := by rw [← h]; simp [hb]
            injection h2 with h2
            subst h2
            refine ⟨?_, ?_⟩ <;> simp [List.filter_cons, hdec, hb, ih1, ih2]

/-- Whether the pass over the test nodes succeeds does not depend on
the cutoff. -/
theorem partition_nodes_ok_of_ok (parse_date : String → Option Int)
    (cutoff cutoff2 : Int) :
    ∀ (nodes : List Node) (p : InstanceActions),
      partition_nodes parse_date cutoff nodes = Except.ok p →
      ∃ p2, partition_nodes parse_date cutoff2 nodes = Except.ok p2 := by
  intro nodes
  induction nodes with
  | nil => intro p _; exact ⟨⟨[], []⟩, rfl⟩
  | cons n rest ih =>
    intro p h
    simp only [partition_nodes] at h
    cases hg : get_creation_time parse_date n with
    | error e => rw [hg] at h; exact Except.noConfusion h
    | ok ct =>
      rw [hg] at h
      cases hr : partition_nodes parse_date cutoff rest with
      | error e => rw [hr] at h; exact Except.noConfusion h
      | ok acts =>
        obtain ⟨acts2, hr2⟩ := ih acts hr
        cases ct with
        | none =>
          refine ⟨⟨acts2.destroyed, n :: acts2.kept⟩, ?_⟩
          simp [partition_nodes, hg, hr2]
        | some t =>
          cases hb : decide (t < cutoff2) with
          | true =>
            refine ⟨⟨n :: acts2.destroyed, acts2.kept⟩, ?_⟩
            simp [partition_nodes, hg, hr2, hb]
          | false =>
            refine ⟨⟨acts2.destroyed, n :: acts2.kept⟩, ?_⟩
            simp [partition_nodes, hg, hr2, hb]

/-- The per-node destroy decision is monotone in the cutoff. -/
theorem node_decision_mono (parse_date : String → Option Int)
    {cutoff cutoff2 : Int} (hcut : cutoff ≤ cutoff2) (n : Node)
    (h : node_decision parse_date cutoff n = true) :
    node_decision parse_date cutoff2 n = true := by
  cases hg : get_creation_time parse_date n with
  | error e => simp [node_decision, hg] at h
  | ok ct =>
    cases ct with
    | none => simp [node_decision, hg] at h
    | some t =>
      simp only [node_decision, hg, decide_eq_true_eq] at h ⊢
      exact lt_of_lt_of_le h hcut

/-! ### Concrete collaborator behaviours and resources for the closed runs -/

/-- A UUID parser behaviour that parses every string to the integer
whose node field is the test marker 0xABC123. -/
def pyU0 : String → Option Nat := fun _ => some 0xABC123

/-- A date parser behaviour that parses every string to the instant 0. -/
def pd0 : String → Option Int := fun _ => some 0

/-- A date parser behaviour that fails on every string. -/
def pd_fail : String → Option Int := fun _ => none

/-- The test marker 0xABC123 of the concrete scenarios. -/
def M0 : Nat := 0xABC123

/-- A test-owned AWS volume created at instant 0. -/
def vA : Volume := ⟨"vol-a", some [("flocker-cluster-id", "cid-a")], none, some 0, none⟩

/-! ### The claims -/

/-- C7: for every configuration and resource collection, the plan
computed with dry_run true equals the plan computed with dry_run false,
for both resource kinds: neither start method consults the flag, so the
destroy/keep partition cannot depend on it. -/
theorem claim_C7_dry_run_equivalence :
    ∀ (py_uuid_int : String → Option Nat) (parse_date : String → Option Int)
      (vlag : Int) (marker : Nat) (now : Int) (volumes : List Volume)
      (ilag : Int) (prefixes : List String) (creator : String)
      (rackspace_nodes ec2_nodes : List Node),
      CleanVolumes_start py_uuid_int parse_date vlag marker now volumes true =
        CleanVolumes_start py_uuid_int parse_date vlag marker now volumes false ∧
      CleanAcceptanceInstances_start parse_date ilag prefixes creator now
          rackspace_nodes ec2_nodes true =
        CleanAcceptanceInstances_start parse_date ilag prefixes creator now
          rackspace_nodes ec2_nodes false := by
  intro _ _ _ _ _ _ _ _ _ _ _
  exact ⟨rfl, rfl⟩

/-- C9: in live mode the executor makes exactly one destroy attempt for
every resource of every destroy set, in enumeration order, and no
behaviour of the underlying destroy call (including one that fails on
every resource) changes that: the run never aborts and its attempt
trace is always exactly the concatenation of the destroy sets. -/
theorem claim_C9_executor_isolation :
    ∀ (destroy_call : Volume → Except PyErr Unit) (groups : List VolumeActions),
      perform_actions destroy_call groups =
        Except.ok ((groups.map VolumeActions.destroy).flatten) := by
  intro destroy_call groups
  induction groups with
  | nil => rfl
  | cons g rest ih => simp [perform_actions, destroy_each_eq, ih]

/-- C8: evidence of the exit-signal defect.  A run whose providers
return no instances computes the empty plan (both sets empty), yet the
process terminates with an uncaught AttributeError — do_exit reads the
destroy attribute of the plain dict returned by
CleanAcceptanceInstances.start — and therefore exits nonzero, where the
claim (and the comment inside do_exit) requires exit status 0. -/
theorem claim_C8_exit_signal_bug :
    cleanup_cloud_resources_main pd0 120 ["acceptance-test-"] "alice" 1000 [] [] false
      = ExitOutcome.crashed PyErr.attributeError ∧
    CleanAcceptanceInstances_start pd0 120 ["acceptance-test-"] "alice" 1000 [] [] false
      = Except.ok ⟨[], []⟩ ∧
    exit_signal_nonzero (ExitOutcome.crashed PyErr.attributeError) = true :=
  ⟨rfl, rfl, rfl⟩

/-- C5: an instance is classified test-owned exactly when its name
starts with some configured name stem with the creator appended and its
state is Running or Terminated; in particular a Stopped instance is
never classified test-owned. -/
theorem claim_C5_instance_ownership (prefixes : List String) (creator : String)
    (n : Node) :
    (is_test_node prefixes creator n = true ↔
      ((∃ q ∈ prefixes, startswith n.name (q ++ creator) = true) ∧
        (n.state = NodeState.running ∨ n.state = NodeState.terminated))) ∧
    (n.state = NodeState.stopped → is_test_node prefixes creator n = false) := by
  have hstate : state_eligible n.state = true ↔
      (n.state = NodeState.running ∨ n.state = NodeState.terminated) := by
    cases n.state <;> simp [state_eligible]
  constructor
  · simp only [is_test_node, Bool.and_eq_true, List.any_eq_true, List.mem_map]
    constructor
    · rintro ⟨⟨q2, ⟨q, hq, rfl⟩, hsw⟩, hs⟩
      exact ⟨⟨q, hq, hsw⟩, hstate.mp hs⟩
    · rintro ⟨⟨q, hq, hsw⟩, hs⟩
      exact ⟨⟨q ++ creator, ⟨q, hq, rfl⟩, hsw⟩, hstate.mpr hs⟩
  · intro hs
    simp [is_test_node, hs, state_eligible]

/-- A stopped instance whose name does match a configured stem. -/
def node_stopped : Node :=
  ⟨"i-5", "acceptance-test-alice-w", NodeState.stopped, some "t", none⟩

/-- C5 witness: the classification theorem applied at a concrete
stopped instance. -/
theorem claim_C5_instance_ownership_witness :
    is_test_node ["acceptance-test-"] "alice" node_stopped = false :=
  (claim_C5_instance_ownership ["acceptance-test-"] "alice" node_stopped).2 rfl

/-- A volume carrying neither a tags mapping nor a metadata mapping. -/
def v_no_mappings : Volume := ⟨"vol-n", none, none, some 0, none⟩

/-- C2 counterexample: on a volume with neither tag mapping the
classification does not return false — it raises TypeError (None is
subscripted), refuting the never-raises part of the claim. -/
theorem claim_C2_counterexample :
    _is_test_volume pyU0 M0 v_no_mappings = Except.error PyErr.typeError := rfl

/-- C2 (amended): whenever at least one of the two tag mappings is
present, the classification returns without raising, and returns true
exactly when the chosen mapping has a flocker-cluster-id entry whose
value parses as a UUID whose 48-bit node field equals the marker; with
both mappings absent it instead raises TypeError. -/
theorem claim_C2_ownership_classification (py_uuid_int : String → Option Nat)
    (marker : Nat) (v : Volume) (h : ownership_mapping v ≠ none) :
    ∃ b, _is_test_volume py_uuid_int marker v = Except.ok b ∧
      (b = true ↔ ∃ m s u, ownership_mapping v = some m ∧
        dict_get m "flocker-cluster-id" = some s ∧
        py_uuid_int s = some u ∧ uuid_node u = marker) := by
  obtain ⟨m, hm⟩ := Option.ne_none_iff_exists'.mp h
  cases hd : dict_get m "flocker-cluster-id" with
  | none =>
    refine ⟨false, ?_, ?_⟩
    · simp [_is_test_volume, _get_cluster_id, _get_tag, hm, hd]
    · constructor
      · intro hb; exact absurd hb Bool.false_ne_true
      · rintro ⟨m2, s, u, hm2, hd2, _, _⟩
        rw [hm] at hm2
        injection hm2 with e
        subst e
        rw [hd] at hd2
        exact Option.noConfusion hd2
  | some s =>
    refine ⟨_is_test_cluster py_uuid_int marker s, ?_, ?_⟩
    · simp [_is_test_volume, _get_cluster_id, _get_tag, hm, hd]
    · constructor
      · intro hb
        cases hu : py_uuid_int s with
        | none => simp [_is_test_cluster, hu] at hb
        | some u =>
          simp only [_is_test_cluster, hu, decide_eq_true_eq] at hb
          exact ⟨m, s, u, hm, hd, hu, hb⟩
      · rintro ⟨m2, s2, u, hm2, hd2, hu, hnode⟩
        rw [hm] at hm2
        injection hm2 with e
        subst e
        rw [hd] at hd2
        injection hd2 with e2
        subst e2
        simp [_is_test_cluster, hu, hnode]

/-- C2 witness: the amended classification theorem applied at a
concrete tagged volume. -/
theorem claim_C2_ownership_classification_witness :
    ∃ b, _is_test_volume pyU0 M0 vA = Except.ok b ∧
      (b = true ↔ ∃ m s u, ownership_mapping vA = some m ∧
        dict_get m "flocker-cluster-id" = some s ∧
        pyU0 s = some u ∧ uuid_node u = M0) :=
  claim_C2_ownership_classification pyU0 M0 vA (by decide)

/-- A test-tagged volume without create_time and without created_at:
its creation time cannot be determined. -/
def v_no_time : Volume := ⟨"vol-t", some [("flocker-cluster-id", "cid-t")], none, none, none⟩

/-- C4 counterexample: a volume with unknown creation time is not
placed in the keep set as the claim requires — the whole pass raises
KeyError (the created_at subscription inside the except handler), so no
plan is produced at all. -/
theorem claim_C4_counterexample :
    _filter_test_volumes pyU0 pd0 M0 100 10 [v_no_time] = Except.error PyErr.keyError := rfl

/-- C4 (amended): whenever the volume pass completes, a volume is in
the destroy set exactly when its creation time was obtained, it was
classified test-owned, and now minus its creation time strictly exceeds
the lag; it is in the keep set exactly otherwise.  (A volume whose
creation time cannot be obtained makes the pass raise instead, so the
keep-by-default part of the original claim fails; see the
counterexample.) -/
theorem claim_C4_volume_retention (py_uuid_int : String → Option Nat)
    (parse_date : String → Option Int) (marker : Nat) (now lag : Int)
    (vols : List Volume) (a : VolumeActions)
    (h : _filter_test_volumes py_uuid_int parse_date marker now lag vols = Except.ok a)
    (v : Volume) (hv : v ∈ vols) :
    (v ∈ a.destroy ↔ ∃ c, _get_volume_creation_time parse_date v = Except.ok c ∧
      _is_test_volume py_uuid_int marker v = Except.ok true ∧ now - c > lag) ∧
    (v ∈ a.keep ↔ ¬ ∃ c, _get_volume_creation_time parse_date v = Except.ok c ∧
      _is_test_volume py_uuid_int marker v = Except.ok true ∧ now - c > lag) := by
  obtain ⟨h1, h2⟩ := filter_test_volumes_ok_eq py_uuid_int parse_date marker now lag vols a h
  obtain ⟨c, t, hc, ht⟩ :=
    filter_test_volumes_ok_lookups py_uuid_int parse_date marker now lag vols a h v hv
  have hiff : vol_decision py_uuid_int parse_date marker now lag v = true ↔
      ∃ c2, _get_volume_creation_time parse_date v = Except.ok c2 ∧
        _is_test_volume py_uuid_int marker v = Except.ok true ∧ now - c2 > lag := by
    have hdec : vol_decision py_uuid_int parse_date marker now lag v
        = (t && decide (now - c > lag)) := by
      simp [vol_decision, hc, ht]
    rw [hdec]
    constructor
    · intro hb
      simp only [Bool.and_eq_true, decide_eq_true_eq] at hb
      exact ⟨c, hc, by rw [ht, hb.1], hb.2⟩
    · rintro ⟨c2, hc2, ht2, hgt⟩
      rw [hc] at hc2
      injection hc2 with e
      subst e
      rw [ht] at ht2
      injection ht2 with e2
      subst e2
      simp [hgt]
  constructor
  · rw [h1, List.mem_filter]
    constructor
    · rintro ⟨_, hq⟩; exact hiff.mp hq
    · intro hx; exact ⟨hv, hiff.mpr hx⟩
  · rw [h2, List.mem_filter]
    constructor
    · rintro ⟨_, hq⟩
      have hq2 : vol_decision py_uuid_int parse_date marker now lag v = false := by
        simpa using hq
      intro hx
      rw [hiff.mpr hx] at hq2
      exact Bool.noConfusion hq2
    · intro hx
      refine ⟨hv, ?_⟩
      cases hqv : vol_decision py_uuid_int parse_date marker now lag v with
      | false => simp
      | true => exact absurd (hiff.mp hqv) hx

/-- C4 witness: the amended retention theorem applied at a concrete
old test volume, which is destroyed. -/
theorem claim_C4_volume_retention_witness :
    (vA ∈ ([vA] : List Volume) ↔ ∃ c, _get_volume_creation_time pd0 vA = Except.ok c ∧
      _is_test_volume pyU0 M0 vA = Except.ok true ∧ (100 : Int) - c > 10) ∧
    (vA ∈ ([] : List Volume) ↔ ¬ ∃ c, _get_volume_creation_time pd0 vA = Except.ok c ∧
      _is_test_volume pyU0 M0 vA = Except.ok true ∧ (100 : Int) - c > 10) :=
  claim_C4_volume_retention pyU0 pd0 M0 100 10 [vA] ⟨[vA], []⟩ rfl vA (by simp)

/-- An instance with unknown creation time whose name matches no
configured stem. -/
def node_foo_unknown : Node := ⟨"i-3", "foo", NodeState.running, none, none⟩

/-- C3 counterexample: an instance with unknown creation time whose
name does not match is not placed in the keep set — it appears in
neither set of the computed plan, refuting the regardless-of-name part
of the claim. -/
theorem claim_C3_counterexample :
    CleanAcceptanceInstances_start pd0 120 ["acceptance-test-"] "alice" 1000
      [node_foo_unknown] [] false = Except.ok ⟨[], []⟩ ∧
    node_foo_unknown ∉ ([] : List Node) := ⟨rfl, by simp⟩

/-- C3 (amended): an instance with unknown creation time that passes
the name/state filter is always placed in the keep set and never in the
destroy set; an instance failing that filter appears in neither set
(see the counterexample). -/
theorem claim_C3_unknown_creation_kept (parse_date : String → Option Int)
    (lag : Int) (prefixes : List String) (creator : String) (now : Int)
    (rackspace_nodes ec2_nodes : List Node) (dry_run : Bool) (p : InstanceActions)
    (h : CleanAcceptanceInstances_start parse_date lag prefixes creator now
      rackspace_nodes ec2_nodes dry_run = Except.ok p)
    (n : Node) (hmem : n ∈ rackspace_nodes ++ ec2_nodes)
    (hcreated : n.created = none) (hlaunch : n.launch_time = none)
    (htest : is_test_node prefixes creator n = true) :
    n ∈ p.kept ∧ n ∉ p.destroyed := by
  simp only [CleanAcceptanceInstances_start] at h
  obtain ⟨h1, h2⟩ := partition_nodes_ok_eq parse_date (now - lag) _ p h
  have hg : get_creation_time parse_date n = Except.ok none := by
    simp [get_creation_time, hcreated, hlaunch]
  have hdec : node_decision parse_date (now - lag) n = false := by
    simp [node_decision, hg]
  constructor
  · rw [h2, List.mem_filter]
    exact ⟨List.mem_filter.mpr ⟨hmem, htest⟩, by simp [hdec]⟩
  · rw [h1, List.mem_filter]
    rintro ⟨_, hq⟩
    rw [hdec] at hq
    exact Bool.noConfusion hq

/-- An instance with unknown creation time whose name does match a
configured stem and whose state is eligible. -/
def node_test_unknown : Node :=
  ⟨"i-3w", "acceptance-test-alice-w1", NodeState.running, none, none⟩

/-- C3 witness: the amended theorem applied at a concrete matching
instance with unknown creation time, which lands in the keep set. -/
theorem claim_C3_unknown_creation_kept_witness :
    node_test_unknown ∈ ([node_test_unknown] : List Node) ∧
    node_test_unknown ∉ ([] : List Node) :=
  claim_C3_unknown_creation_kept pd0 120 ["acceptance-test-"] "alice" 1000
    [node_test_unknown] [] false ⟨[], [node_test_unknown]⟩ rfl node_test_unknown
    (by simp) rfl rfl (by decide)

/-- An instance with known (old) creation time whose name matches no
configured stem. -/
def node_foo_known : Node :=
  ⟨"i-1", "foo", NodeState.running, some "2015-01-01T00:00:00", none⟩

/-- C1 counterexample: for the instance kind the plan is not a
partition of all enumerated nodes — an enumerated node that fails the
test-name filter appears in neither the destroy set nor the keep set. -/
theorem claim_C1_counterexample :
    CleanAcceptanceInstances_start pd0 120 ["acceptance-test-"] "alice" 1000
      [node_foo_known] [] false = Except.ok ⟨[], []⟩ ∧
    node_foo_known ∉ ([] : List Node) := ⟨rfl, by simp⟩

/-- C1 (amended): the volume plan, when computed, partitions the
enumerated volumes: destroy and keep are disjoint and together exhaust
the input.  The instance plan partitions only the filtered test nodes:
destroy and keep are disjoint and together are exactly the enumerated
nodes passing the name/state filter (so a node failing the filter is in
neither set; see the counterexample). -/
theorem claim_C1_partition :
    (∀ (py_uuid_int : String → Option Nat) (parse_date : String → Option Int)
        (marker : Nat) (now lag : Int) (vols : List Volume) (a : VolumeActions),
        _filter_test_volumes py_uuid_int parse_date marker now lag vols = Except.ok a →
        (∀ v : Volume, (v ∈ a.destroy ∨ v ∈ a.keep) ↔ v ∈ vols) ∧
        (∀ v : Volume, ¬(v ∈ a.destroy ∧ v ∈ a.keep))) ∧
    (∀ (parse_date : String → Option Int) (lag : Int) (prefixes : List String)
        (creator : String) (now : Int) (rackspace_nodes ec2_nodes : List Node)
        (dry_run : Bool) (p : InstanceActions),
        CleanAcceptanceInstances_start parse_date lag prefixes creator now
          rackspace_nodes ec2_nodes dry_run = Except.ok p →
        (∀ n : Node, (n ∈ p.destroyed ∨ n ∈ p.kept) ↔
          n ∈ (rackspace_nodes ++ ec2_nodes).filter (is_test_node prefixes creator)) ∧
        (∀ n : Node, ¬(n ∈ p.destroyed ∧ n ∈ p.kept))) := by
  constructor
  · intro py pd marker now lag vols a h
    obtain ⟨h1, h2⟩ := filter_test_volumes_ok_eq py pd marker now lag vols a h
    constructor
    · intro v
      rw [h1, h2]
      simp only [List.mem_filter]
      constructor
      · rintro (⟨hv, _⟩ | ⟨hv, _⟩) <;> exact hv
      · intro hv
        cases hq : vol_decision py pd marker now lag v with
        | true => exact Or.inl ⟨hv, rfl⟩
        | false => exact Or.inr ⟨hv, rfl⟩
    · intro v
      rw [h1, h2]
      simp only [List.mem_filter]
      rintro ⟨⟨_, hq1⟩, _, hq2⟩
      simp [hq1] at hq2
  · intro pd lag prefixes creator now rn en dr p h
    simp only [CleanAcceptanceInstances_start] at h
    obtain ⟨h1, h2⟩ := partition_nodes_ok_eq pd (now - lag) _ p h
    constructor
    · intro n
      rw [h1, h2]
      simp only [List.mem_filter]
      constructor
      · rintro (⟨hv, _⟩ | ⟨hv, _⟩) <;> exact hv
      · intro hv
        cases hq : node_decision pd (now - lag) n with
        | true => exact Or.inl ⟨hv, rfl⟩
        | false => exact Or.inr ⟨hv, rfl⟩
    · intro n
      rw [h1, h2]
      simp only [List.mem_filter]
      rintro ⟨⟨_, hq1⟩, _, hq2⟩
      simp [hq1] at hq2

/-- C1 witness: the amended partition theorem applied at a concrete
one-volume run. -/
theorem claim_C1_partition_witness :
    ((vA ∈ ([vA] : List Volume) ∨ vA ∈ ([] : List Volume)) ↔ vA ∈ [vA]) ∧
    ¬(vA ∈ ([vA] : List Volume) ∧ vA ∈ ([] : List Volume)) := by
  have h := claim_C1_partition.1 pyU0 pd0 M0 100 10 [vA] ⟨[vA], []⟩ rfl
  exact ⟨h.1 vA, h.2 vA⟩

/-- C6: holding everything else fixed, shrinking the lag keeps every
planned destruction planned, for both resource kinds: a volume (an
instance) in the destroy set under lag L is in the destroy set under
every lag L2 smaller than L, and the smaller-lag plan is computed
whenever the larger-lag plan is. -/
theorem claim_C6_lag_monotonicity :
    (∀ (py_uuid_int : String → Option Nat) (parse_date : String → Option Int)
        (marker : Nat) (now lag lag2 : Int) (vols : List Volume)
        (a : VolumeActions) (v : Volume), lag2 < lag →
        _filter_test_volumes py_uuid_int parse_date marker now lag vols = Except.ok a →
        v ∈ a.destroy →
        ∃ a2, _filter_test_volumes py_uuid_int parse_date marker now lag2 vols = Except.ok a2 ∧
          v ∈ a2.destroy) ∧
    (∀ (parse_date : String → Option Int) (lag lag2 : Int) (prefixes : List String)
        (creator : String) (now : Int) (rackspace_nodes ec2_nodes : List Node)
        (dry_run : Bool) (p : InstanceActions) (n : Node), lag2 < lag →
        CleanAcceptanceInstances_start parse_date lag prefixes creator now
          rackspace_nodes ec2_nodes dry_run = Except.ok p →
        n ∈ p.destroyed →
        ∃ p2, CleanAcceptanceInstances_start parse_date lag2 prefixes creator now
          rackspace_nodes ec2_nodes dry_run = Except.ok p2 ∧ n ∈ p2.destroyed) := by
  constructor
  · intro py pd marker now lag lag2 vols a v hlag h hv
    obtain ⟨a2, h2⟩ := filter_test_volumes_ok_of_ok py pd marker now lag lag2 vols a h
    refine ⟨a2, h2, ?_⟩
    obtain ⟨d1, _⟩ := filter_test_volumes_ok_eq py pd marker now lag vols a h
    obtain ⟨d2, _⟩ := filter_test_volumes_ok_eq py pd marker now lag2 vols a2 h2
    rw [d1, List.mem_filter] at hv
    rw [d2, List.mem_filter]
    exact ⟨hv.1, vol_decision_mono py pd marker now hlag v hv.2⟩
  · intro pd lag lag2 prefixes creator now rn en dr p n hlag h hn
    simp only [CleanAcceptanceInstances_start] at h ⊢
    obtain ⟨p2, h2⟩ := partition_nodes_ok_of_ok pd (now - lag) (now - lag2) _ p h
    refine ⟨p2, h2, ?_⟩
    obtain ⟨d1, _⟩ := partition_nodes_ok_eq pd (now - lag) _ p h
    obtain ⟨d2, _⟩ := partition_nodes_ok_eq pd (now - lag2) _ p2 h2
    rw [d1, List.mem_filter] at hn
    rw [d2, List.mem_filter]
    have hcut : now - lag ≤ now - lag2 := sub_le_sub_left (le_of_lt hlag) now
    exact ⟨hn.1, node_decision_mono pd hcut n hn.2⟩

/-- C6 witness: the monotonicity theorem applied at a concrete run,
moving from lag 10 to lag 5. -/
theorem claim_C6_lag_monotonicity_witness :
    ∃ a2, _filter_test_volumes pyU0 pd0 M0 100 5 [vA] = Except.ok a2 ∧ vA ∈ a2.destroy :=
  claim_C6_lag_monotonicity.1 pyU0 pd0 M0 100 10 5 [vA] ⟨[vA], []⟩ vA (by decide)
    rfl (by simp)

/-- C10: both computed lists are subsequences of the enumeration: the
destroy list and the keep list each preserve the relative order in
which the resources were enumerated, for volumes and for instances. -/
theorem claim_C10_stable_partition :
    (∀ (py_uuid_int : String → Option Nat) (parse_date : String → Option Int)
        (marker : Nat) (now lag : Int) (vols : List Volume) (a : VolumeActions),
        _filter_test_volumes py_uuid_int parse_date marker now lag vols = Except.ok a →
        List.Sublist a.destroy vols ∧ List.Sublist a.keep vols) ∧
    (∀ (parse_date : String → Option Int) (lag : Int) (prefixes : List String)
        (creator : String) (now : Int) (rackspace_nodes ec2_nodes : List Node)
        (dry_run : Bool) (p : InstanceActions),
        CleanAcceptanceInstances_start parse_date lag prefixes creator now
          rackspace_nodes ec2_nodes dry_run = Except.ok p →
        List.Sublist p.destroyed (rackspace_nodes ++ ec2_nodes) ∧
        List.Sublist p.kept (rackspace_nodes ++ ec2_nodes)) := by
  constructor
  · intro py pd marker now lag vols a h
    obtain ⟨h1, h2⟩ := filter_test_volumes_ok_eq py pd marker now lag vols a h
    rw [h1, h2]
    exact ⟨List.filter_sublist _, List.filter_sublist _⟩
  · intro pd lag prefixes creator now rn en dr p h
    simp only [CleanAcceptanceInstances_start] at h
    obtain ⟨h1, h2⟩ := partition_nodes_ok_eq pd (now - lag) _ p h
    rw [h1, h2]
    exact ⟨(List.filter_sublist _).trans (List.filter_sublist _),
      (List.filter_sublist _).trans (List.filter_sublist _)⟩

/-- C10 witness: the order-preservation theorem applied at a concrete
one-volume run. -/
theorem claim_C10_stable_partition_witness :
    List.Sublist ([vA] : List Volume) [vA] ∧ List.Sublist ([] : List Volume) [vA] :=
  claim_C10_stable_partition.1 pyU0 pd0 M0 100 10 [vA] ⟨[vA], []⟩ rfl
